import Mathlib

/-!
Shallow embedding of the enrollment-lifecycle and progress-computation core of
the LearnNest application (src/app.py).  Database tables become lists of
records, SQL queries become list traversals, and each Flask route of the core
becomes a pure function from a database state (plus its request inputs) to a
new database state and a result.  Timestamps and autoincrement ids are passed
in as parameters.  Primary-key uniqueness of the relational schema is assumed
where noted.
-/

namespace LearnNest

/-- A row of the users table (only the columns this core reads). -/
structure UserRow where
  id : Nat
  fullName : String
  deriving Repr, DecidableEq

/-- A row of the courses table (only the columns this core reads).
`enrollmentKeyHash` is the stored digest of the enrollment key
(`enrollment_key_hash`, nullable). -/
structure Course where
  id : Nat
  courseCode : String
  instructorId : Nat
  isActive : Bool
  maxStudents : Nat
  enrollmentKeyHash : Option String
  deriving Repr, DecidableEq

/-- A row of the enrollments table (src/app.py lines 389-403).
`status` is a plain string in the schema: the reachable values are
"pending", "approved", "rejected", "blocked". -/
structure Enrollment where
  id : Nat
  studentId : Nat
  courseId : Nat
  status : String
  enrolledAt : Nat
  approvedAt : Option Nat
  progressPercentage : ℚ
  manualProgressOverride : Option ℚ
  deriving Repr, DecidableEq

/-- A row of the assignments table (quizzes are assignments with
`assignment_type = "quiz"`). -/
structure Assignment where
  id : Nat
  courseId : Nat
  assignmentType : String
  isActive : Bool
  deriving Repr, DecidableEq

/-- A row of the assignment_submissions table. -/
structure Submission where
  assignmentId : Nat
  studentId : Nat
  deriving Repr, DecidableEq

/-- A row of the notifications table (title/type/related id; the message
text is presentation and is not modelled). -/
structure Notification where
  userId : Nat
  title : String
  kind : String
  relatedId : Option Nat
  deriving Repr, DecidableEq

/-- The database state: one list per table of the core schema. -/
structure DB where
  users : List UserRow
  courses : List Course
  enrollments : List Enrollment
  assignments : List Assignment
  submissions : List Submission
  notifications : List Notification
  deriving Repr, DecidableEq

/-- The distinct failure outcomes of the core routes.  Each constructor
corresponds to one reason string flashed or returned by src/app.py:
`missingFields` = "Course code and enrollment key are required.",
`notFound` = course code not found or inactive,
`invalidKey` = "Invalid enrollment key.",
`alreadyRequested` = "You have already requested enrollment for this course.",
`courseFull` = "Course is full.",
`notFoundOrProcessed` = "Enrollment not found or already processed.",
`notFoundOrCannotAct` = "Enrollment not found or cannot be
blocked/removed/unblocked.",
`accessDenied` = "Course not found or access denied" (HTTP 403),
`missingValue` = "Please enter a progress value",
`outOfRange` = "Progress must be between 0 and 100",
`invalidNumber` = "Invalid progress value",
`storageError` = an exception reached a route handler (rollback + error reply). -/
inductive AppError
  | missingFields
  | notFound
  | invalidKey
  | alreadyRequested
  | courseFull
  | notFoundOrProcessed
  | notFoundOrCannotAct
  | accessDenied
  | missingValue
  | outOfRange
  | invalidNumber
  | storageError
  deriving Repr, DecidableEq

/-- Result of a route: a success payload or an error outcome. -/
inductive Res (α : Type)
  | ok (a : α)
  | error (e : AppError)
  deriving Repr, DecidableEq

/-- COUNT(*) of active quizzes of a course
(src/app.py lines 170-174). -/
def totalQuizzes (db : DB) (courseId : Nat) : Nat :=
  (db.assignments.filter (fun a =>
    a.courseId == courseId && a.assignmentType == "quiz" && a.isActive)).length

/-- COUNT(DISTINCT a.id) of active quizzes of the course for which the student
has at least one submission (src/app.py lines 181-189).  Assignment ids are a
primary key, so counting matching assignment rows equals counting distinct ids. -/
def submittedQuizzes (db : DB) (studentId courseId : Nat) : Nat :=
  (db.assignments.filter (fun a =>
    a.courseId == courseId && a.assignmentType == "quiz" && a.isActive
      && db.submissions.any (fun s =>
        s.assignmentId == a.id && s.studentId == studentId))).length

/-- The enrollment row of a (student, course) pair
(SELECT ... WHERE student_id = ? AND course_id = ?). -/
def findEnrollment (db : DB) (studentId courseId : Nat) : Option Enrollment :=
  db.enrollments.find? (fun e => e.studentId == studentId && e.courseId == courseId)

/-- update_student_progress (src/app.py lines 152-212), happy path: read the
manual override, compute the automatic progress from quiz counts, store it into
progress_percentage of the (student, course) row unconditionally, and return
the override when one is set, else the automatic value. -/
def update_student_progress (db : DB) (studentId courseId : Nat) : DB × ℚ :=
  let ov := (findEnrollment db studentId courseId).bind
    (fun e => e.manualProgressOverride)
  let total := totalQuizzes db courseId
  let autoProgress : ℚ :=
    if total == 0 then 0
    else ((submittedQuizzes db studentId courseId : ℚ) / (total : ℚ)) * 100
  let db1 : DB := { db with enrollments := db.enrollments.map (fun e =>
    if e.studentId == studentId && e.courseId == courseId then
      { e with progressPercentage := autoProgress } else e) }
  (db1, match ov with | some v => v | none => autoProgress)

/-- The automatic progress value as §4.2 of the specification words it:
0 when the course has no active quiz, else
100 * submitted / total.  Spec-side formula, kept for comparison with the
value computed inside `update_student_progress`. -/
def specAutomaticProgress (db : DB) (studentId courseId : Nat) : ℚ :=
  if totalQuizzes db courseId = 0 then 0
  else 100 * (submittedQuizzes db studentId courseId : ℚ) / (totalQuizzes db courseId : ℚ)

/-- The value computed inside update_student_progress equals the automatic
progress formula of the specification. -/
theorem autoValue_eq (db : DB) (sid cid : Nat) :
    (if (totalQuizzes db cid) == 0 then (0 : ℚ)
      else ((submittedQuizzes db sid cid : ℚ) / (totalQuizzes db cid : ℚ)) * 100)
      = specAutomaticProgress db sid cid := by
  unfold specAutomaticProgress
  rcases Nat.eq_zero_or_pos (totalQuizzes db cid) with h | h
  · simp [h]
  · have hne : totalQuizzes db cid ≠ 0 := Nat.pos_iff_ne_zero.mp h
    simp only [beq_iff_eq, if_neg hne]
    ring

/-- The state effect of update_student_progress: the automatic value is
written into the (student, course) row unconditionally. -/
theorem usp_enrollments (db : DB) (sid cid : Nat) :
    (update_student_progress db sid cid).1.enrollments
      = db.enrollments.map (fun e =>
          if e.studentId == sid && e.courseId == cid then
            { e with progressPercentage := specAutomaticProgress db sid cid } else e) := by
  have hval := autoValue_eq db sid cid
  unfold update_student_progress
  simp only [hval]

/-- The return value of update_student_progress: the manual override when one
is set, else the automatic value. -/
theorem usp_ret (db : DB) (sid cid : Nat) :
    (update_student_progress db sid cid).2
      = ((findEnrollment db sid cid).bind
          (fun e => e.manualProgressOverride)).getD (specAutomaticProgress db sid cid) := by
  have hval := autoValue_eq db sid cid
  unfold update_student_progress
  simp only [hval]
  rcases hov : (findEnrollment db sid cid).bind (fun e => e.manualProgressOverride) with
    _ | v <;> simp [hov]

/-- C4: automatic progress recomputation yields 0 with zero active quizzes and
100 * submitted / total otherwise; the value is persisted into
progress_percentage of the (student, course) row unconditionally — also when a
manual override is active — and the function returns the manual override when
one is set, else the automatic value. -/
theorem C4_thm (db : DB) (sid cid : Nat) :
    (update_student_progress db sid cid).1.enrollments
      = db.enrollments.map (fun e =>
          if e.studentId == sid && e.courseId == cid then
            { e with progressPercentage := specAutomaticProgress db sid cid } else e)
    ∧ (update_student_progress db sid cid).2
      = ((findEnrollment db sid cid).bind
          (fun e => e.manualProgressOverride)).getD (specAutomaticProgress db sid cid) :=
  ⟨usp_enrollments db sid cid, usp_ret db sid cid⟩

/-- The course lookup of student_enroll (src/app.py lines 5693-5698):
first active course with the given code, joined with the instructor user row. -/
def lookupCourse (db : DB) (code : String) : Option Course :=
  db.courses.find? (fun c => c.courseCode == code && c.isActive
    && db.users.any (fun u => u.id == c.instructorId))

/-- check_password_hash applied to the nullable stored hash (src/app.py line
5706): a missing (falsy) hash fails, otherwise the digest is verified against
the plaintext key by the external secret verifier `verify`. -/
def checkKey (verify : String → String → Bool) (h : Option String) (key : String) : Bool :=
  match h with
  | none => false
  | some digest => verify digest key

/-- COUNT(*) of approved enrollments of a course (src/app.py lines 5723-5726). -/
def countApproved (db : DB) (courseId : Nat) : Nat :=
  (db.enrollments.filter (fun e => e.courseId == courseId && e.status == "approved")).length

/-- The row inserted by student_enroll (src/app.py lines 5735-5738): only
student_id, course_id and status are given; enrolled_at takes the current
timestamp and the other columns their schema defaults. -/
def mkPendingEnrollment (newId sid cid now : Nat) : Enrollment :=
  { id := newId, studentId := sid, courseId := cid, status := "pending",
    enrolledAt := now, approvedAt := none, progressPercentage := 0,
    manualProgressOverride := none }

/-- student_enroll (src/app.py lines 5674-5760): look up the active course by
code, verify the enrollment key, reject a duplicate (student, course) row of
any status, reject when the approved count has reached max_students, else
insert one pending row and notify the instructor.  `code` and `key` are the
form fields after the strip/uppercase normalization of lines 5682-5683. -/
def student_enroll (db : DB) (verify : String → String → Bool) (sid : Nat)
    (code key : String) (newId now : Nat) : DB × Res Unit :=
  if code == "" || key == "" then (db, .error .missingFields)
  else
    match lookupCourse db code with
    | none => (db, .error .notFound)
    | some course =>
      if !(checkKey verify course.enrollmentKeyHash key) then (db, .error .invalidKey)
      else if (findEnrollment db sid course.id).isSome then (db, .error .alreadyRequested)
      else if course.maxStudents ≤ countApproved db course.id then (db, .error .courseFull)
      else
        ({ db with
            enrollments := db.enrollments ++ [mkPendingEnrollment newId sid course.id now],
            notifications := db.notifications ++
              [{ userId := course.instructorId, title := "New Enrollment Request",
                 kind := "info", relatedId := some course.id }] },
          .ok ())

/-- The guard query shared by the five instructor transition routes
(e.g. src/app.py lines 1904-1910): the enrollment row by id, joined with its
course and its student user row, kept only when the course belongs to the
acting instructor and the status matches the route.  Enrollment and course ids
are primary keys, so the first match is the only one. -/
def findOwnedWithStatus (db : DB) (uid eid : Nat) (st : String) :
    Option (Enrollment × Course) :=
  match db.enrollments.find? (fun e => e.id == eid) with
  | none => none
  | some e =>
    match db.courses.find? (fun c => c.id == e.courseId) with
    | none => none
    | some c =>
      if c.instructorId == uid && e.status == st
          && db.users.any (fun u => u.id == e.studentId) then
        some (e, c)
      else none

/-- UPDATE enrollments SET ... WHERE id = eid. -/
def setById (l : List Enrollment) (eid : Nat) (f : Enrollment → Enrollment) :
    List Enrollment :=
  l.map (fun e => if e.id == eid then f e else e)

/-- instructor_approve_enrollment (src/app.py lines 1896-1945): on a pending
enrollment of an owned course, set status to approved and approved_at to the
current timestamp, and notify the student.  There is no capacity check. -/
def instructor_approve_enrollment (db : DB) (uid eid now : Nat) : DB × Res Unit :=
  match findOwnedWithStatus db uid eid "pending" with
  | none => (db, .error .notFoundOrProcessed)
  | some (e, _c) =>
    ({ db with
        enrollments := setById db.enrollments eid
          (fun x => { x with status := "approved", approvedAt := some now }),
        notifications := db.notifications ++
          [{ userId := e.studentId, title := "Enrollment Approved",
             kind := "success", relatedId := some e.courseId }] },
      .ok ())

/-- instructor_reject_enrollment (src/app.py lines 1947-1996): on a pending
enrollment of an owned course, set status to rejected and notify the student. -/
def instructor_reject_enrollment (db : DB) (uid eid : Nat) : DB × Res Unit :=
  match findOwnedWithStatus db uid eid "pending" with
  | none => (db, .error .notFoundOrProcessed)
  | some (e, _c) =>
    ({ db with
        enrollments := setById db.enrollments eid (fun x => { x with status := "rejected" }),
        notifications := db.notifications ++
          [{ userId := e.studentId, title := "Enrollment Not Approved",
             kind := "warning", relatedId := some e.courseId }] },
      .ok ())

/-- instructor_block_student (src/app.py lines 1999-2048): on an approved
enrollment of an owned course, set status to blocked and notify the student. -/
def instructor_block_student (db : DB) (uid eid : Nat) : DB × Res Unit :=
  match findOwnedWithStatus db uid eid "approved" with
  | none => (db, .error .notFoundOrCannotAct)
  | some (e, _c) =>
    ({ db with
        enrollments := setById db.enrollments eid (fun x => { x with status := "blocked" }),
        notifications := db.notifications ++
          [{ userId := e.studentId, title := "Course Access Blocked",
             kind := "warning", relatedId := some e.courseId }] },
      .ok ())

/-- instructor_unblock_student (src/app.py lines 2099-2148): on a blocked
enrollment of an owned course, set status back to approved and notify the
student. -/
def instructor_unblock_student (db : DB) (uid eid : Nat) : DB × Res Unit :=
  match findOwnedWithStatus db uid eid "blocked" with
  | none => (db, .error .notFoundOrCannotAct)
  | some (e, _c) =>
    ({ db with
        enrollments := setById db.enrollments eid (fun x => { x with status := "approved" }),
        notifications := db.notifications ++
          [{ userId := e.studentId, title := "Course Access Restored",
             kind := "success", relatedId := some e.courseId }] },
      .ok ())

/-- instructor_remove_student (src/app.py lines 2051-2096): on an approved
enrollment of an owned course, hard-delete the row and notify the student. -/
def instructor_remove_student (db : DB) (uid eid : Nat) : DB × Res Unit :=
  match findOwnedWithStatus db uid eid "approved" with
  | none => (db, .error .notFoundOrCannotAct)
  | some (e, _c) =>
    ({ db with
        enrollments := db.enrollments.filter (fun x => !(x.id == eid)),
        notifications := db.notifications ++
          [{ userId := e.studentId, title := "Removed from Course",
             kind := "warning", relatedId := some e.courseId }] },
      .ok ())

/-- The progress form value as the route sees it after HTTP decoding.
`blank` is a missing or empty field (request.form.get returns None or ""),
`nonNumeric` a string that float() rejects, `num q` a string that float()
parses to the value q. -/
inductive FormValue
  | blank
  | nonNumeric
  | num (q : ℚ)
  deriving Repr, DecidableEq

/-- The JSON success payload of instructor_set_student_progress:
the progress value returned in the reply and the is_manual flag. -/
structure ProgressReply where
  progress : ℚ
  isManual : Bool
  deriving Repr, DecidableEq

/-- The course-ownership query of the progress routes (src/app.py lines
2272-2275): course by id restricted to the acting instructor, no is_active
filter. -/
def findOwnedCourse (db : DB) (uid cid : Nat) : Option Course :=
  db.courses.find? (fun c => c.id == cid && c.instructorId == uid)

/-- UPDATE enrollments SET manual_progress_override = NULL
WHERE course_id = ? AND student_id = ?  (src/app.py lines 2287-2291). -/
def clearOverride (l : List Enrollment) (cid sid : Nat) : List Enrollment :=
  l.map (fun e => if e.courseId == cid && e.studentId == sid then
    { e with manualProgressOverride := none } else e)

/-- UPDATE enrollments SET manual_progress_override = ?, progress_percentage = ?
WHERE course_id = ? AND student_id = ?  (src/app.py lines 2333-2337): the
manual value is written into both columns. -/
def setOverrideAndProgress (l : List Enrollment) (cid sid : Nat) (v : ℚ) :
    List Enrollment :=
  l.map (fun e => if e.courseId == cid && e.studentId == sid then
    { e with manualProgressOverride := some v, progressPercentage := v } else e)

/-- The display value of an enrollment:
COALESCE(manual_progress_override, progress_percentage)
(src/app.py line 2180 and the other display queries). -/
def displayProgress (e : Enrollment) : ℚ :=
  e.manualProgressOverride.getD e.progressPercentage

/-- instructor_set_student_progress (src/app.py lines 2264-2363).
Blank input clears the override (committed at once), recomputes the automatic
progress via update_student_progress, notifies the student and replies with the
recomputed value; a valid number is written into both override and
progress_percentage and echoed back; out-of-range or non-numeric input fails
with no mutation.  In the set branch the notification message reads the
student user row, so a missing user row raises before the commit and the
update is rolled back. -/
def instructor_set_student_progress (db : DB) (uid cid sid : Nat)
    (input : FormValue) : DB × Res ProgressReply :=
  match findOwnedCourse db uid cid with
  | none => (db, .error .accessDenied)
  | some _course =>
    match input with
    | .blank =>
      let db1 : DB := { db with enrollments := clearOverride db.enrollments cid sid }
      let res := update_student_progress db1 sid cid
      let db2 : DB := { res.1 with notifications := res.1.notifications ++
        [{ userId := sid, title := "Course Progress Updated",
           kind := "info", relatedId := some cid }] }
      (db2, .ok { progress := res.2, isManual := false })
    | .nonNumeric => (db, .error .invalidNumber)
    | .num v =>
      if v < 0 || 100 < v then (db, .error .outOfRange)
      else
        match db.users.find? (fun u => u.id == sid) with
        | none => (db, .error .storageError)
        | some _u =>
          ({ db with
              enrollments := setOverrideAndProgress db.enrollments cid sid v,
              notifications := db.notifications ++
                [{ userId := sid, title := "Course Progress Updated",
                   kind := "info", relatedId := some cid }] },
            .ok { progress := v, isManual := true })

/-- The student list of the bulk route (src/app.py lines 2227-2232): approved
enrollments of the course joined with the users table, projected to ids. -/
def bulkStudents (db : DB) (cid : Nat) : List Nat :=
  ((db.enrollments.filter (fun e => e.courseId == cid && e.status == "approved"
    && db.users.any (fun u => u.id == e.studentId))).map (fun e => e.studentId))

/-- instructor_set_progress_bulk (src/app.py lines 2191-2262): after the same
ownership and input validation, write the value into both override and
progress_percentage of every (course, student) row of the approved student
list and notify each student; reply with the student count. -/
def instructor_set_progress_bulk (db : DB) (uid cid : Nat)
    (input : FormValue) : DB × Res Nat :=
  match findOwnedCourse db uid cid with
  | none => (db, .error .accessDenied)
  | some _course =>
    match input with
    | .blank => (db, .error .missingValue)
    | .nonNumeric => (db, .error .invalidNumber)
    | .num v =>
      if v < 0 || 100 < v then (db, .error .outOfRange)
      else
        let students := bulkStudents db cid
        ({ db with
            enrollments := db.enrollments.map (fun e =>
              if e.courseId == cid && students.contains e.studentId then
                { e with manualProgressOverride := some v, progressPercentage := v }
              else e),
            notifications := db.notifications ++ students.map (fun s =>
              { userId := s, title := "Course Progress Updated",
                kind := "info", relatedId := some cid }) },
          .ok students.length)

/-- update_student_progress with a storage fault injected: the bare
try/except of src/app.py lines 159-212 catches any storage exception, logs it
and returns 0.  `fault = true` models an exception raised at the first query,
before any mutation: the caller receives the plain value 0 and the state is
untouched.  `fault = false` is the happy path. -/
def update_student_progress_withFault (db : DB) (sid cid : Nat) (fault : Bool) :
    DB × ℚ :=
  if fault then (db, 0) else update_student_progress db sid cid

/-- The blank-input branch of instructor_set_student_progress with the storage
fault of `update_student_progress_withFault` injected into the recomputation.
The override clear is committed (src/app.py line 2292) before
update_student_progress runs, so the fault neither rolls the clear back nor
reaches the route: the route continues with the returned 0 and replies
success. -/
def instructor_set_student_progress_withFault (db : DB) (uid cid sid : Nat)
    (input : FormValue) (fault : Bool) : DB × Res ProgressReply :=
  match findOwnedCourse db uid cid with
  | none => (db, .error .accessDenied)
  | some _course =>
    match input with
    | .blank =>
      let db1 : DB := { db with enrollments := clearOverride db.enrollments cid sid }
      let res := update_student_progress_withFault db1 sid cid fault
      let db2 : DB := { res.1 with notifications := res.1.notifications ++
        [{ userId := sid, title := "Course Progress Updated",
           kind := "info", relatedId := some cid }] }
      (db2, .ok { progress := res.2, isManual := false })
    | .nonNumeric => (db, .error .invalidNumber)
    | .num v =>
      if v < 0 || 100 < v then (db, .error .outOfRange)
      else
        match db.users.find? (fun u => u.id == sid) with
        | none => (db, .error .storageError)
        | some _u =>
          ({ db with
              enrollments := setOverrideAndProgress db.enrollments cid sid v,
              notifications := db.notifications ++
                [{ userId := sid, title := "Course Progress Updated",
                   kind := "info", relatedId := some cid }] },
            .ok { progress := v, isManual := true })

/-- One operation of the core, for trace-level invariants. -/
inductive Op where
  | enroll (verify : String → String → Bool) (sid : Nat) (code key : String)
      (newId now : Nat)
  | approve (uid eid now : Nat)
  | reject (uid eid : Nat)
  | block (uid eid : Nat)
  | unblock (uid eid : Nat)
  | remove (uid eid : Nat)
  | setProgress (uid cid sid : Nat) (input : FormValue)
  | setProgressBulk (uid cid : Nat) (input : FormValue)
  | recompute (sid cid : Nat)

/-- The state effect of one operation. -/
def step (db : DB) (op : Op) : DB :=
  match op with
  | .enroll verify sid code key newId now =>
      (student_enroll db verify sid code key newId now).1
  | .approve uid eid now => (instructor_approve_enrollment db uid eid now).1
  | .reject uid eid => (instructor_reject_enrollment db uid eid).1
  | .block uid eid => (instructor_block_student db uid eid).1
  | .unblock uid eid => (instructor_unblock_student db uid eid).1
  | .remove uid eid => (instructor_remove_student db uid eid).1
  | .setProgress uid cid sid input =>
      (instructor_set_student_progress db uid cid sid input).1
  | .setProgressBulk uid cid input =>
      (instructor_set_progress_bulk db uid cid input).1
  | .recompute sid cid => (update_student_progress db sid cid).1

/-- The state after a sequence of operations. -/
def steps (db : DB) (ops : List Op) : DB := ops.foldl step db

/-- Row invariant: a pending enrollment has no approval timestamp. -/
abbrev PinvRow (e : Enrollment) : Prop := e.status = "pending" → e.approvedAt = none

/-- State invariant: every pending enrollment has no approval timestamp. -/
abbrev Pinv (db : DB) : Prop := ∀ e ∈ db.enrollments, PinvRow e

/-- An enrollment with its status blanked, for frame statements: two rows agree
on every field except status exactly when their blanked forms are equal. -/
def eraseStatus (e : Enrollment) : Enrollment := { e with status := "" }

theorem find?_map_upd (l : List Enrollment) (p q : Enrollment → Bool)
    (f : Enrollment → Enrollment)
    (h1 : ∀ e, p e = true → q e = true)
    (h2 : ∀ e, p (f e) = p e) :
    (l.map (fun e => if q e then f e else e)).find? p
      = (l.find? p).map (fun e => if q e then f e else e) := by
  induction l with
  | nil => rfl
  | cons a t ih =>
    cases hpa : p a with
    | true =>
      have hqa := h1 a hpa
      have hhead : p (if q a then f a else a) = true := by
        rw [hqa, if_pos rfl, h2 a]; exact hpa
      simp only [List.map_cons]
      rw [List.find?_cons_of_pos _ hhead, List.find?_cons_of_pos _ hpa]
      simp
    | false =>
      have hhead : ¬ p (if q a then f a else a) = true := by
        cases hq2 : q a <;> simp [hq2, h2 a, hpa]
      simp only [List.map_cons]
      rw [List.find?_cons_of_neg _ hhead, List.find?_cons_of_neg _ (by simp [hpa]),
        ih]

theorem find?_restrict_none (l : List Course) (cid uid : Nat) (c : Course)
    (hnd : (l.map (fun x => x.id)).Nodup)
    (hfind : l.find? (fun x => x.id == cid) = some c)
    (hni : c.instructorId ≠ uid) :
    l.find? (fun x => x.id == cid && x.instructorId == uid) = none := by
  rw [List.find?_eq_none]
  intro x hx hpx
  have hxid : x.id = cid := by
    have := (Bool.and_eq_true _ _).mp hpx
    exact beq_iff_eq.mp this.1
  have hxins : x.instructorId = uid := by
    have := (Bool.and_eq_true _ _).mp hpx
    exact beq_iff_eq.mp this.2
  have hcmem : c ∈ l := List.mem_of_find?_eq_some hfind
  have hcid : c.id = cid := by
    have := List.find?_some hfind
    exact beq_iff_eq.mp this
  have hxc : x = c :=
    List.inj_on_of_nodup_map hnd hx hcmem (by rw [hxid, hcid])
  exact hni (hxc ▸ hxins)

theorem pinv_map (l : List Enrollment) (f : Enrollment → Enrollment)
    (hf : ∀ e, PinvRow e → PinvRow (f e))
    (hl : ∀ e ∈ l, PinvRow e) : ∀ e ∈ l.map f, PinvRow e := by
  intro e he
  obtain ⟨x, hx, rfl⟩ := List.mem_map.mp he
  exact hf x (hl x hx)

theorem pinvRow_condUpdate (g : Enrollment → Enrollment) (q : Enrollment → Bool)
    (hg : ∀ e, PinvRow e → PinvRow (g e)) :
    ∀ e, PinvRow e → PinvRow (if q e then g e else e) := by
  intro e he
  by_cases h : q e = true
  · rw [if_pos h]; exact hg e he
  · rw [if_neg h]; exact he

theorem map_eraseStatus_setStatus (l : List Enrollment) (eid : Nat) (s : String) :
    (setById l eid (fun x => { x with status := s })).map eraseStatus
      = l.map eraseStatus := by
  unfold setById
  rw [List.map_map]
  apply List.map_congr_left
  intro a _
  by_cases h : a.id == eid
  · simp only [Function.comp_apply, if_pos h]; rfl
  · simp only [Function.comp_apply, if_neg h]

/-! ### Concrete states used by counterexamples and witnesses -/

/-- A course of instructor 9 with room to spare. -/
def courseA : Course :=
  { id := 1, courseCode := "CS101", instructorId := 9, isActive := true,
    maxStudents := 30, enrollmentKeyHash := some "KH" }

/-- Student 5 approved in course 1 with automatic progress 50 and no override. -/
def enrA : Enrollment :=
  { id := 1, studentId := 5, courseId := 1, status := "approved",
    enrolledAt := 10, approvedAt := some 11,
    progressPercentage := 50, manualProgressOverride := none }

/-- State for C1: one approved student at automatic progress 50. -/
def dbA : DB :=
  { users := [{ id := 5, fullName := "Stu" }, { id := 9, fullName := "Inst" }],
    courses := [courseA],
    enrollments := [enrA],
    assignments := [], submissions := [], notifications := [] }

/-- C1 counterexample: in `dbA` the stored progress_percentage of student 5 is
50; after instructor 9 sets a manual override of 90 the stored
progress_percentage is 90, not its last automatic value 50 — setting a manual
override does change the stored progress_percentage. -/
theorem C1_cex :
    (findEnrollment dbA 5 1).map (fun e => e.progressPercentage) = some 50
    ∧ (findEnrollment (instructor_set_student_progress dbA 9 1 5 (.num 90)).1 5 1).map
        (fun e => e.progressPercentage) = some 90
    ∧ ((90 : ℚ) = 50 → False) := by decide

/-- C1 amended: setting a manual override writes the value into both
manual_progress_override and progress_percentage — in the single-student route
and in the bulk route alike — so the display value equals the override, and the
stored progress_percentage holds the override value (not the last automatic
value) until the next automatic recomputation. -/
theorem C1_thm (db : DB) (uid cid sid : Nat) (v : ℚ) (c : Course) (u : UserRow)
    (e0 : Enrollment)
    (hc : findOwnedCourse db uid cid = some c)
    (hu : db.users.find? (fun x => x.id == sid) = some u)
    (h0 : 0 ≤ v) (h100 : v ≤ 100)
    (he : findEnrollment db sid cid = some e0)
    (hsb : sid ∈ bulkStudents db cid) :
    (instructor_set_student_progress db uid cid sid (.num v)).2
        = .ok { progress := v, isManual := true }
    ∧ findEnrollment (instructor_set_student_progress db uid cid sid (.num v)).1 sid cid
        = some { e0 with manualProgressOverride := some v, progressPercentage := v }
    ∧ displayProgress { e0 with manualProgressOverride := some v, progressPercentage := v } = v
    ∧ findEnrollment (instructor_set_progress_bulk db uid cid (.num v)).1 sid cid
        = some { e0 with manualProgressOverride := some v, progressPercentage := v } := by
  have hp0 := List.find?_some he
  have hps : e0.studentId = sid := by
    have := (Bool.and_eq_true _ _).mp hp0
    exact beq_iff_eq.mp this.1
  have hpc : e0.courseId = cid := by
    have := (Bool.and_eq_true _ _).mp hp0
    exact beq_iff_eq.mp this.2
  have hrange : ¬ (v < 0 || 100 < v) = true := by
    simp [not_lt.mpr h0, not_lt.mpr h100]
  have hcontains : (bulkStudents db cid).contains sid = true :=
    List.elem_eq_true_of_mem hsb
  have he0 : db.enrollments.find?
      (fun e => e.studentId == sid && e.courseId == cid) = some e0 := he
  have hsingle :
      instructor_set_student_progress db uid cid sid (.num v)
        = ({ db with
              enrollments := setOverrideAndProgress db.enrollments cid sid v,
              notifications := db.notifications ++
                [{ userId := sid, title := "Course Progress Updated",
                   kind := "info", relatedId := some cid }] },
            .ok { progress := v, isManual := true }) := by
    unfold instructor_set_student_progress
    rw [hc]
    dsimp only
    rw [if_neg hrange, hu]
  have hmap1 := find?_map_upd db.enrollments
    (fun e => e.studentId == sid && e.courseId == cid)
    (fun e => e.courseId == cid && e.studentId == sid)
    (fun e => { e with manualProgressOverride := some v, progressPercentage := v })
    (fun e hpe => by
      have h := (Bool.and_eq_true _ _).mp hpe
      simp [beq_iff_eq.mp h.1, beq_iff_eq.mp h.2])
    (fun e => rfl)
  have hmap2 := find?_map_upd db.enrollments
    (fun e => e.studentId == sid && e.courseId == cid)
    (fun e => e.courseId == cid && (bulkStudents db cid).contains e.studentId)
    (fun e => { e with manualProgressOverride := some v, progressPercentage := v })
    (fun e hpe => by
      have h := (Bool.and_eq_true _ _).mp hpe
      simp only [beq_iff_eq.mp h.1, beq_iff_eq.mp h.2, beq_self_eq_true,
        Bool.true_and]
      exact hcontains)
    (fun e => rfl)
  refine ⟨by rw [hsingle], ?_, by simp [displayProgress], ?_⟩
  · rw [hsingle]
    show (setOverrideAndProgress db.enrollments cid sid v).find?
      (fun e => e.studentId == sid && e.courseId == cid) = _
    unfold setOverrideAndProgress
    rw [hmap1, he0]
    simp [hps, hpc]
  · have hbulk :
        instructor_set_progress_bulk db uid cid (.num v)
          = ({ db with
                enrollments := db.enrollments.map (fun e =>
                  if e.courseId == cid && (bulkStudents db cid).contains e.studentId then
                    { e with manualProgressOverride := some v, progressPercentage := v }
                  else e),
                notifications := db.notifications ++ (bulkStudents db cid).map (fun s =>
                  { userId := s, title := "Course Progress Updated",
                    kind := "info", relatedId := some cid }) },
              .ok (bulkStudents db cid).length) := by
      unfold instructor_set_progress_bulk
      rw [hc]
      dsimp only
      rw [if_neg hrange]
    rw [hbulk]
    show (db.enrollments.map (fun e =>
        if e.courseId == cid && (bulkStudents db cid).contains e.studentId then
          { e with manualProgressOverride := some v, progressPercentage := v }
        else e)).find?
      (fun e => e.studentId == sid && e.courseId == cid) = _
    rw [hmap2, he0]
    have hcond : (e0.courseId == cid && (bulkStudents db cid).contains e0.studentId) = true := by
      simp only [hps, hpc, beq_self_eq_true, Bool.true_and]
      exact hcontains
    show some (if (e0.courseId == cid && (bulkStudents db cid).contains e0.studentId) = true
        then ({ e0 with manualProgressOverride := some v, progressPercentage := v } : Enrollment)
        else e0) = _
    rw [if_pos hcond]

/-- C1 witness: the amended claim evaluated in `dbA` for override value 90. -/
theorem C1_witness :
    (instructor_set_student_progress dbA 9 1 5 (.num 90)).2
        = .ok { progress := 90, isManual := true }
    ∧ findEnrollment (instructor_set_student_progress dbA 9 1 5 (.num 90)).1 5 1
        = some { enrA with manualProgressOverride := some 90, progressPercentage := 90 }
    ∧ displayProgress { enrA with manualProgressOverride := some 90, progressPercentage := 90 } = 90
    ∧ findEnrollment (instructor_set_progress_bulk dbA 9 1 (.num 90)).1 5 1
        = some { enrA with manualProgressOverride := some 90, progressPercentage := 90 } :=
  C1_thm dbA 9 1 5 90 courseA { id := 5, fullName := "Stu" } enrA
    (by decide) (by decide) (by decide) (by decide) (by decide) (by decide)

/-- A capacity-1 course of instructor 9. -/
def courseCap1 : Course :=
  { id := 1, courseCode := "CS101", instructorId := 9, isActive := true,
    maxStudents := 1, enrollmentKeyHash := some "KH" }

/-- Capacity-1 course, student 5 approved, student 6 pending. -/
def dbCap1Pending : DB :=
  { users := [{ id := 5, fullName := "A" }, { id := 6, fullName := "B" },
              { id := 9, fullName := "Inst" }],
    courses := [courseCap1],
    enrollments :=
      [{ id := 1, studentId := 5, courseId := 1, status := "approved",
         enrolledAt := 10, approvedAt := some 11,
         progressPercentage := 0, manualProgressOverride := none },
       { id := 2, studentId := 6, courseId := 1, status := "pending",
         enrolledAt := 12, approvedAt := none,
         progressPercentage := 0, manualProgressOverride := none }],
    assignments := [], submissions := [], notifications := [] }

/-- Capacity-1 course, student 5 approved, student 6 not yet enrolled. -/
def dbCap1Free : DB :=
  { dbCap1Pending with enrollments :=
      [{ id := 1, studentId := 5, courseId := 1, status := "approved",
         enrolledAt := 10, approvedAt := some 11,
         progressPercentage := 0, manualProgressOverride := none }] }

/-- C3: instructor_approve_enrollment has no capacity check.  In
`dbCap1Pending` the course has max_students = 1 and one approved enrollment,
yet approving the pending enrollment of student 6 succeeds, and afterwards the
approved count is 2, exceeding max_students.  The code violates the stated
capacity property. -/
theorem C3_thm :
    countApproved dbCap1Pending 1 = courseCap1.maxStudents
    ∧ (instructor_approve_enrollment dbCap1Pending 9 2 77).2 = .ok ()
    ∧ countApproved (instructor_approve_enrollment dbCap1Pending 9 2 77).1 1 = 2
    ∧ courseCap1.maxStudents < 2 := by decide

/-- C7 counterexample: with course capacity 1 and student 5 already approved,
the enrollment request of student 6 with the correct key does not succeed: the
request-time capacity check compares the approved count (1) against
max_students (1) and fails with CourseFull, creating no pending record. -/
theorem C7_cex :
    student_enroll dbCap1Free (fun d k => d == k) 6 "CS101" "KH" 2 50
      = (dbCap1Free, .error .courseFull) := by decide

/-- C7 amended: in a capacity-1 course with one approved student, a second
request with the correct key fails with CourseFull and leaves the state
unchanged (the request-time capacity check counts approved enrollments, which
already equal the capacity); and had a pending record existed, approving it
would succeed, because the approval route performs no capacity check. -/
theorem C7_thm :
    student_enroll dbCap1Free (fun d k => d == k) 6 "CS101" "KH" 2 50
      = (dbCap1Free, .error .courseFull)
    ∧ (instructor_approve_enrollment dbCap1Pending 9 2 88).2 = .ok () := by decide

/-- C2: the request-enrollment contract.  With both fields present, the
request fails with notFound when no active course carries the code; with
invalidKey when the key does not verify against the stored hash; with
alreadyRequested when a (student, course) row of any status exists; with
courseFull when the approved count has reached max_students; and otherwise
appends exactly one new pending record, leaving every existing record
unmodified, and notifies the instructor.  Every failure leaves the state
unchanged. -/
theorem C2_thm (db : DB) (verify : String → String → Bool) (sid : Nat)
    (code key : String) (newId now : Nat) (course : Course)
    (hcode : (code == "") = false) (hkey : (key == "") = false) :
    (lookupCourse db code = none →
      student_enroll db verify sid code key newId now = (db, .error .notFound))
    ∧ (lookupCourse db code = some course →
        checkKey verify course.enrollmentKeyHash key = false →
        student_enroll db verify sid code key newId now = (db, .error .invalidKey))
    ∧ (lookupCourse db code = some course →
        checkKey verify course.enrollmentKeyHash key = true →
        (findEnrollment db sid course.id).isSome = true →
        student_enroll db verify sid code key newId now = (db, .error .alreadyRequested))
    ∧ (lookupCourse db code = some course →
        checkKey verify course.enrollmentKeyHash key = true →
        (findEnrollment db sid course.id).isSome = false →
        course.maxStudents ≤ countApproved db course.id →
        student_enroll db verify sid code key newId now = (db, .error .courseFull))
    ∧ (lookupCourse db code = some course →
        checkKey verify course.enrollmentKeyHash key = true →
        (findEnrollment db sid course.id).isSome = false →
        countApproved db course.id < course.maxStudents →
        student_enroll db verify sid code key newId now
          = ({ db with
                enrollments := db.enrollments
                  ++ [mkPendingEnrollment newId sid course.id now],
                notifications := db.notifications ++
                  [{ userId := course.instructorId, title := "New Enrollment Request",
                     kind := "info", relatedId := some course.id }] },
              .ok ())) := by
  have hne : ¬ (code == "" || key == "") = true := by
    simp [hcode, hkey]
  refine ⟨?_, ?_, ?_, ?_, ?_⟩
  · intro hfind
    unfold student_enroll
    rw [if_neg hne, hfind]
  · intro hfind hchk
    unfold student_enroll
    rw [if_neg hne, hfind]
    simp [hchk]
  · intro hfind hchk hdup
    unfold student_enroll
    rw [if_neg hne, hfind]
    simp [hchk, hdup]
  · intro hfind hchk hdup hcap
    unfold student_enroll
    rw [if_neg hne, hfind]
    simp [hchk, hdup, hcap]
  · intro hfind hchk hdup hcap
    unfold student_enroll
    rw [if_neg hne, hfind]
    simp [hchk, hdup, Nat.not_le.mpr hcap]

/-- C2 witness: the success case of the contract, evaluated in the capacity-1
course before any approval: student 6 requests with the right key and exactly
one new pending row is appended. -/
theorem C2_witness :
    student_enroll { dbCap1Free with enrollments := [] } (fun d k => d == k) 6
        "CS101" "KH" 2 50
      = ({ dbCap1Free with
            enrollments := [mkPendingEnrollment 2 6 1 50],
            notifications := [{ userId := 9, title := "New Enrollment Request",
                                kind := "info", relatedId := some 1 }] },
          .ok ()) := by
  have h := C2_thm { dbCap1Free with enrollments := [] } (fun d k => d == k) 6
    "CS101" "KH" 2 50 courseCap1 (by decide) (by decide)
  have h5 := h.2.2.2.2 (by decide) (by decide) (by decide) (by decide)
  exact h5.trans (by decide)

theorem pinv_append (l1 l2 : List Enrollment)
    (h1 : ∀ e ∈ l1, PinvRow e) (h2 : ∀ e ∈ l2, PinvRow e) :
    ∀ e ∈ l1 ++ l2, PinvRow e := by
  intro e he
  rcases List.mem_append.mp he with h | h
  · exact h1 e h
  · exact h2 e h

theorem pinv_filter (l : List Enrollment) (q : Enrollment → Bool)
    (h : ∀ e ∈ l, PinvRow e) : ∀ e ∈ l.filter q, PinvRow e := by
  intro e he
  exact h e (List.mem_of_mem_filter he)

/-- Every operation of the core preserves the invariant that a pending
enrollment has no approval timestamp: enrollment creates pending rows with a
null approved_at; approval stamps approved_at while leaving pending; and no
operation ever sets a status back to pending. -/
theorem pinv_step (db : DB) (op : Op) (h : Pinv db) : Pinv (step db op) := by
  cases op with
  | enroll verify sid code key newId now =>
    dsimp only [step]
    unfold student_enroll
    split
    · exact h
    · split
      · exact h
      · split
        · exact h
        · split
          · exact h
          · split
            · exact h
            · refine pinv_append _ _ h ?_
              intro e he
              have he2 : e = mkPendingEnrollment newId sid _ now :=
                List.mem_singleton.mp he
              subst he2
              intro _
              rfl
  | approve uid eid now =>
    dsimp only [step]
    unfold instructor_approve_enrollment
    split
    · exact h
    · unfold setById
      exact pinv_map _ _
        (pinvRow_condUpdate _ _ (fun x _ hp => by simp at hp)) h
  | reject uid eid =>
    dsimp only [step]
    unfold instructor_reject_enrollment
    split
    · exact h
    · unfold setById
      exact pinv_map _ _
        (pinvRow_condUpdate _ _ (fun x _ hp => by simp at hp)) h
  | block uid eid =>
    dsimp only [step]
    unfold instructor_block_student
    split
    · exact h
    · unfold setById
      exact pinv_map _ _
        (pinvRow_condUpdate _ _ (fun x _ hp => by simp at hp)) h
  | unblock uid eid =>
    dsimp only [step]
    unfold instructor_unblock_student
    split
    · exact h
    · unfold setById
      exact pinv_map _ _
        (pinvRow_condUpdate _ _ (fun x _ hp => by simp at hp)) h
  | remove uid eid =>
    dsimp only [step]
    unfold instructor_remove_student
    split
    · exact h
    · exact pinv_filter _ _ h
  | setProgress uid cid sid input =>
    dsimp only [step]
    unfold instructor_set_student_progress
    split
    · exact h
    · split
      · unfold update_student_progress clearOverride
        exact pinv_map _ _ (pinvRow_condUpdate _ _ (fun x hx => hx))
          (pinv_map _ _ (pinvRow_condUpdate _ _ (fun x hx => hx)) h)
      · exact h
      · split
        · exact h
        · split
          · exact h
          · unfold setOverrideAndProgress
            exact pinv_map _ _ (pinvRow_condUpdate _ _ (fun x hx => hx)) h
  | setProgressBulk uid cid input =>
    dsimp only [step]
    unfold instructor_set_progress_bulk
    split
    · exact h
    · split
      · exact h
      · exact h
      · split
        · exact h
        · exact pinv_map _ _ (pinvRow_condUpdate _ _ (fun x hx => hx)) h
  | recompute sid cid =>
    dsimp only [step]
    unfold update_student_progress
    exact pinv_map _ _ (pinvRow_condUpdate _ _ (fun x hx => hx)) h

theorem pinv_steps (db : DB) (ops : List Op) (h : Pinv db) :
    Pinv (steps db ops) := by
  induction ops generalizing db with
  | nil => exact h
  | cons o t ih => exact ih (step db o) (pinv_step db o h)

/-- C5: along any operation sequence, a pending enrollment always has a null
approved_at (so approved_at is null until the first approval); a successful
approval acts on a row whose approved_at is still null, stamps it with the
approval time and modifies no other row — and since no operation returns a row
to pending, the stamp happens at most once per row; block and unblock change
no field other than status (in particular not approved_at). -/
theorem C5_thm (db : DB) (ops : List Op) (uid eid now : Nat)
    (e : Enrollment) (c : Course) (hinv : Pinv db) :
    Pinv (steps db ops)
    ∧ (findOwnedWithStatus db uid eid "pending" = some (e, c) →
        e.approvedAt = none
        ∧ (instructor_approve_enrollment db uid eid now).1.enrollments
            = setById db.enrollments eid
                (fun x => { x with status := "approved", approvedAt := some now }))
    ∧ (instructor_block_student db uid eid).1.enrollments.map eraseStatus
        = db.enrollments.map eraseStatus
    ∧ (instructor_unblock_student db uid eid).1.enrollments.map eraseStatus
        = db.enrollments.map eraseStatus := by
  refine ⟨pinv_steps db ops hinv, ?_, ?_, ?_⟩
  · intro hfo
    have hfo2 := hfo
    unfold findOwnedWithStatus at hfo2
    rcases h1 : db.enrollments.find? (fun x => x.id == eid) with _ | e1
    · rw [h1] at hfo2; exact absurd hfo2 (by simp)
    · rw [h1] at hfo2
      dsimp only at hfo2
      rcases h2 : db.courses.find? (fun x => x.id == e1.courseId) with _ | c1
      · rw [h2] at hfo2; exact absurd hfo2 (by simp)
      · rw [h2] at hfo2
        dsimp only at hfo2
        by_cases h3 : (c1.instructorId == uid && e1.status == "pending"
            && db.users.any (fun u => u.id == e1.studentId)) = true
        · rw [if_pos h3] at hfo2
          have he1 : e1 = e := by
            have := Option.some.inj hfo2
            exact congrArg Prod.fst this
          subst he1
          have hmem : e1 ∈ db.enrollments := List.mem_of_find?_eq_some h1
          have hpend : e1.status = "pending" := by
            have hand := (Bool.and_eq_true _ _).mp h3
            have := (Bool.and_eq_true _ _).mp hand.1
            exact beq_iff_eq.mp this.2
          refine ⟨hinv e1 hmem hpend, ?_⟩
          unfold instructor_approve_enrollment
          rw [hfo]
        · rw [if_neg h3] at hfo2; exact absurd hfo2 (by simp)
  · unfold instructor_block_student
    rcases hb : findOwnedWithStatus db uid eid "approved" with _ | ec
    · rfl
    · exact map_eraseStatus_setStatus db.enrollments eid "blocked"
  · unfold instructor_unblock_student
    rcases hb : findOwnedWithStatus db uid eid "blocked" with _ | ec
    · rfl
    · exact map_eraseStatus_setStatus db.enrollments eid "approved"

/-- C5 witness: the invariant evaluated along a concrete trace (approve then
block then recompute) from the capacity-1 state, and the approve/block/unblock
conjuncts at the pending enrollment of student 6. -/
theorem C5_witness :
    Pinv (steps dbCap1Pending
        [Op.approve 9 2 20, Op.block 9 2, Op.recompute 6 1])
    ∧ (findOwnedWithStatus dbCap1Pending 9 2 "pending"
          = some (dbCap1Pending.enrollments.get ⟨1, by decide⟩, courseCap1) →
        (dbCap1Pending.enrollments.get ⟨1, by decide⟩).approvedAt = none
        ∧ (instructor_approve_enrollment dbCap1Pending 9 2 20).1.enrollments
            = setById dbCap1Pending.enrollments 2
                (fun x => { x with status := "approved", approvedAt := some 20 }))
    ∧ (instructor_block_student dbCap1Pending 9 2).1.enrollments.map eraseStatus
        = dbCap1Pending.enrollments.map eraseStatus
    ∧ (instructor_unblock_student dbCap1Pending 9 2).1.enrollments.map eraseStatus
        = dbCap1Pending.enrollments.map eraseStatus :=
  C5_thm dbCap1Pending [Op.approve 9 2 20, Op.block 9 2, Op.recompute 6 1]
    9 2 20 (dbCap1Pending.enrollments.get ⟨1, by decide⟩) courseCap1 (by decide)

/-- A state owned by instructor 10, used to probe actions by instructor 11. -/
def dbOther : DB :=
  { users := [{ id := 5, fullName := "S" }, { id := 10, fullName := "Owner" },
              { id := 11, fullName := "Other" }],
    courses := [{ id := 1, courseCode := "CS101", instructorId := 10,
                  isActive := true, maxStudents := 30,
                  enrollmentKeyHash := some "KH" }],
    enrollments := [{ id := 1, studentId := 5, courseId := 1, status := "pending",
                      enrolledAt := 10, approvedAt := none,
                      progressPercentage := 0, manualProgressOverride := none }],
    assignments := [], submissions := [], notifications := [] }

/-- C6 counterexample: instructor 11 does not own course 1, and approving
enrollment 1 indeed fails leaving the state unchanged — but the reported
error is the combined "Enrollment not found or already processed" outcome, not
a distinct AccessDenied, so the claim as stated (fails with AccessDenied) is
false for the transition routes. -/
theorem C6_cex :
    instructor_approve_enrollment dbOther 11 1 99
      = (dbOther, .error .notFoundOrProcessed)
    ∧ (AppError.notFoundOrProcessed = AppError.accessDenied → False) := by decide

/-- C6 amended: when the acting instructor does not own the course of the
enrollment, every transition (approve, reject, block, unblock, remove) and
both progress-setting operations fail and leave the state completely
unchanged — never silently succeeding — with the progress routes reporting
access denied and the transition routes reporting their combined
not-found/not-actionable error. -/
theorem C6_thm (db : DB) (uid eid cid sid now : Nat) (input : FormValue)
    (e : Enrollment) (c c2 : Course)
    (henr : db.enrollments.find? (fun x => x.id == eid) = some e)
    (hcrs : db.courses.find? (fun x => x.id == e.courseId) = some c)
    (hni : c.instructorId ≠ uid)
    (hc2 : db.courses.find? (fun x => x.id == cid) = some c2)
    (hni2 : c2.instructorId ≠ uid)
    (hnd : (db.courses.map (fun x => x.id)).Nodup) :
    instructor_approve_enrollment db uid eid now = (db, .error .notFoundOrProcessed)
    ∧ instructor_reject_enrollment db uid eid = (db, .error .notFoundOrProcessed)
    ∧ instructor_block_student db uid eid = (db, .error .notFoundOrCannotAct)
    ∧ instructor_unblock_student db uid eid = (db, .error .notFoundOrCannotAct)
    ∧ instructor_remove_student db uid eid = (db, .error .notFoundOrCannotAct)
    ∧ instructor_set_student_progress db uid cid sid input = (db, .error .accessDenied)
    ∧ instructor_set_progress_bulk db uid cid input = (db, .error .accessDenied) := by
  have hguard : ∀ st : String, findOwnedWithStatus db uid eid st = none := by
    intro st
    unfold findOwnedWithStatus
    rw [henr]
    dsimp only
    rw [hcrs]
    dsimp only
    rw [if_neg]
    simp only [Bool.and_eq_true, beq_iff_eq]
    intro hand
    exact hni hand.1.1
  have howned : findOwnedCourse db uid cid = none :=
    find?_restrict_none db.courses cid uid c2 hnd hc2 hni2
  refine ⟨?_, ?_, ?_, ?_, ?_, ?_, ?_⟩
  · unfold instructor_approve_enrollment
    rw [hguard]
  · unfold instructor_reject_enrollment
    rw [hguard]
  · unfold instructor_block_student
    rw [hguard]
  · unfold instructor_unblock_student
    rw [hguard]
  · unfold instructor_remove_student
    rw [hguard]
  · unfold instructor_set_student_progress
    rw [howned]
  · unfold instructor_set_progress_bulk
    rw [howned]

/-- C6 witness: the amended claim evaluated with instructor 11 acting on the
state owned by instructor 10. -/
theorem C6_witness :
    instructor_approve_enrollment dbOther 11 1 99
      = (dbOther, .error .notFoundOrProcessed)
    ∧ instructor_reject_enrollment dbOther 11 1 = (dbOther, .error .notFoundOrProcessed)
    ∧ instructor_block_student dbOther 11 1 = (dbOther, .error .notFoundOrCannotAct)
    ∧ instructor_unblock_student dbOther 11 1 = (dbOther, .error .notFoundOrCannotAct)
    ∧ instructor_remove_student dbOther 11 1 = (dbOther, .error .notFoundOrCannotAct)
    ∧ instructor_set_student_progress dbOther 11 1 5 (.num 40)
        = (dbOther, .error .accessDenied)
    ∧ instructor_set_progress_bulk dbOther 11 1 (.num 40)
        = (dbOther, .error .accessDenied) :=
  C6_thm dbOther 11 1 1 5 99 (.num 40)
    { id := 1, studentId := 5, courseId := 1, status := "pending",
      enrolledAt := 10, approvedAt := none,
      progressPercentage := 0, manualProgressOverride := none }
    { id := 1, courseCode := "CS101", instructorId := 10, isActive := true,
      maxStudents := 30, enrollmentKeyHash := some "KH" }
    { id := 1, courseCode := "CS101", instructorId := 10, isActive := true,
      maxStudents := 30, enrollmentKeyHash := some "KH" }
    (by decide) (by decide) (by decide) (by decide) (by decide) (by decide)

/-- The automatic progress formula does not read the enrollments table. -/
theorem specAuto_enr (db : DB) (l : List Enrollment) (sid cid : Nat) :
    specAutomaticProgress { db with enrollments := l } sid cid
      = specAutomaticProgress db sid cid := rfl

/-- The blank-input branch of instructor_set_student_progress, written out:
clear the override, recompute, append the notification, reply with the
recomputed value. -/
theorem setProgress_blank_eq (db : DB) (uid cid sid : Nat) (c : Course)
    (hc : findOwnedCourse db uid cid = some c) :
    instructor_set_student_progress db uid cid sid .blank
      = ({ (update_student_progress
              { db with enrollments := clearOverride db.enrollments cid sid } sid cid).1
            with notifications :=
              (update_student_progress
                { db with enrollments := clearOverride db.enrollments cid sid }
                sid cid).1.notifications
              ++ [{ userId := sid, title := "Course Progress Updated",
                    kind := "info", relatedId := some cid }] },
          .ok { progress := (update_student_progress { db with enrollments := clearOverride db.enrollments cid sid } sid cid).2, isManual := false }) := by
  unfold instructor_set_student_progress
  rw [hc]

/-- C8: clearing the manual override (blank input) sets
manual_progress_override to null, immediately recomputes and stores the
automatic progress, returns the freshly recomputed automatic value to the
caller, and the display value of the row afterwards equals that automatic
value. -/
theorem C8_thm (db : DB) (uid cid sid : Nat) (c : Course) (e0 : Enrollment)
    (hc : findOwnedCourse db uid cid = some c)
    (he : findEnrollment db sid cid = some e0) :
    (instructor_set_student_progress db uid cid sid .blank).2
      = .ok { progress := specAutomaticProgress db sid cid, isManual := false }
    ∧ findEnrollment (instructor_set_student_progress db uid cid sid .blank).1 sid cid
      = some { e0 with manualProgressOverride := none, progressPercentage := specAutomaticProgress db sid cid }
    ∧ displayProgress { e0 with manualProgressOverride := none, progressPercentage := specAutomaticProgress db sid cid }
      = specAutomaticProgress db sid cid := by
  have hp0b := List.find?_some he
  have hp0 : (e0.studentId == sid && e0.courseId == cid) = true := hp0b
  have hps : e0.studentId = sid := beq_iff_eq.mp ((Bool.and_eq_true _ _).mp hp0).1
  have hpc : e0.courseId = cid := beq_iff_eq.mp ((Bool.and_eq_true _ _).mp hp0).2
  have he0 : db.enrollments.find?
      (fun e => e.studentId == sid && e.courseId == cid) = some e0 := he
  have hcond0 : (e0.courseId == cid && e0.studentId == sid) = true := by
    simp [hps, hpc]
  have hfind1 : (clearOverride db.enrollments cid sid).find?
      (fun e => e.studentId == sid && e.courseId == cid)
      = some { e0 with manualProgressOverride := none } := by
    unfold clearOverride
    rw [find?_map_upd db.enrollments
      (fun e => e.studentId == sid && e.courseId == cid)
      (fun e => e.courseId == cid && e.studentId == sid)
      (fun e => { e with manualProgressOverride := none })
      (fun e hpe => by
        have h := (Bool.and_eq_true _ _).mp hpe
        simp [beq_iff_eq.mp h.1, beq_iff_eq.mp h.2])
      (fun e => rfl), he0]
    show some (if (e0.courseId == cid && e0.studentId == sid) = true then ({ e0 with manualProgressOverride := none } : Enrollment) else e0) = _
    rw [if_pos hcond0]
  have hcondF : (({ e0 with manualProgressOverride := none } : Enrollment).studentId == sid && ({ e0 with manualProgressOverride := none } : Enrollment).courseId == cid) = true := hp0
  refine ⟨?_, ?_, rfl⟩
  · rw [setProgress_blank_eq db uid cid sid c hc]
    show Res.ok ({ progress := (update_student_progress ({ db with enrollments := clearOverride db.enrollments cid sid } : DB) sid cid).2, isManual := false } : ProgressReply) = _
    rw [usp_ret]
    rw [show findEnrollment ({ db with enrollments := clearOverride db.enrollments cid sid } : DB) sid cid = some { e0 with manualProgressOverride := none } from hfind1]
    rw [specAuto_enr]
    rfl
  · rw [setProgress_blank_eq db uid cid sid c hc]
    show (update_student_progress { db with enrollments := clearOverride db.enrollments cid sid } sid cid).1.enrollments.find? (fun e => e.studentId == sid && e.courseId == cid) = _
    rw [usp_enrollments]
    rw [find?_map_upd (clearOverride db.enrollments cid sid)
      (fun e => e.studentId == sid && e.courseId == cid)
      (fun e => e.studentId == sid && e.courseId == cid)
      (fun e => { e with progressPercentage := specAutomaticProgress { db with enrollments := clearOverride db.enrollments cid sid } sid cid })
      (fun e h => h) (fun e => rfl), hfind1, Option.map_some']
    show some (if (({ e0 with manualProgressOverride := none } : Enrollment).studentId == sid && ({ e0 with manualProgressOverride := none } : Enrollment).courseId == cid) = true then ({ e0 with manualProgressOverride := none, progressPercentage := specAutomaticProgress { db with enrollments := clearOverride db.enrollments cid sid } sid cid } : Enrollment) else ({ e0 with manualProgressOverride := none } : Enrollment)) = some ({ e0 with manualProgressOverride := none, progressPercentage := specAutomaticProgress db sid cid } : Enrollment)
    rw [if_pos hcondF, specAuto_enr]

/-- Student 5 approved in course 1 with a manual override of 90. -/
def enrB : Enrollment :=
  { id := 1, studentId := 5, courseId := 1, status := "approved",
    enrolledAt := 10, approvedAt := some 11,
    progressPercentage := 50, manualProgressOverride := some 90 }

/-- State for C8: two active quizzes, one submitted by student 5, override 90. -/
def dbB : DB :=
  { users := [{ id := 5, fullName := "Stu" }, { id := 9, fullName := "Inst" }],
    courses := [courseA],
    enrollments := [enrB],
    assignments :=
      [{ id := 1, courseId := 1, assignmentType := "quiz", isActive := true },
       { id := 2, courseId := 1, assignmentType := "quiz", isActive := true }],
    submissions := [{ assignmentId := 1, studentId := 5 }],
    notifications := [] }

/-- C8 witness: clearing the override of student 5 in `dbB` (two active
quizzes, one submitted, override 90) returns and stores the automatic 50 and
the display value becomes 50. -/
theorem C8_witness :
    (instructor_set_student_progress dbB 9 1 5 .blank).2
      = .ok { progress := specAutomaticProgress dbB 5 1, isManual := false }
    ∧ findEnrollment (instructor_set_student_progress dbB 9 1 5 .blank).1 5 1
      = some { enrB with manualProgressOverride := none, progressPercentage := specAutomaticProgress dbB 5 1 }
    ∧ displayProgress { enrB with manualProgressOverride := none, progressPercentage := specAutomaticProgress dbB 5 1 }
      = specAutomaticProgress dbB 5 1 :=
  C8_thm dbB 9 1 5 courseA enrB (by decide) (by decide)

/-- State for C9: student 5 approved with stale progress 40 and override 70;
one active quiz, no submission. -/
def dbC : DB :=
  { users := [{ id := 5, fullName := "Stu" }, { id := 9, fullName := "Inst" }],
    courses := [courseA],
    enrollments := [{ id := 1, studentId := 5, courseId := 1, status := "approved",
                      enrolledAt := 10, approvedAt := some 11,
                      progressPercentage := 40, manualProgressOverride := some 70 }],
    assignments := [{ id := 1, courseId := 1, assignmentType := "quiz", isActive := true }],
    submissions := [], notifications := [] }

/-- C9 counterexample: a storage fault raised during the automatic progress
recomputation of the clear-override route is not surfaced as a StorageError:
the bare except inside update_student_progress absorbs it and returns 0, and
the route reports success with progress 0, while the stored
progress_percentage keeps its stale value 40. -/
theorem C9_cex :
    (instructor_set_student_progress_withFault dbC 9 1 5 .blank true).2
      = .ok { progress := 0, isManual := false }
    ∧ ((instructor_set_student_progress_withFault dbC 9 1 5 .blank true).2
        = .error .storageError → False)
    ∧ (findEnrollment (instructor_set_student_progress_withFault dbC 9 1 5 .blank true).1 5 1).map
        (fun e => e.progressPercentage) = some 40 := by decide

/-- C9 amended: a storage fault during automatic progress recomputation is
swallowed, not surfaced: update_student_progress catches the exception and
returns 0, and the clear-override route reports success with progress 0; the
override clear, committed before the recomputation, is not rolled back, and
the stored automatic progress is left stale. -/
theorem C9_thm (db : DB) (uid cid sid : Nat) (c : Course)
    (hc : findOwnedCourse db uid cid = some c) :
    (instructor_set_student_progress_withFault db uid cid sid .blank true).2
      = .ok { progress := 0, isManual := false }
    ∧ (instructor_set_student_progress_withFault db uid cid sid .blank true).1.enrollments
      = clearOverride db.enrollments cid sid := by
  unfold instructor_set_student_progress_withFault update_student_progress_withFault
  rw [hc]
  exact ⟨rfl, rfl⟩

/-- C9 witness: the amended claim evaluated in `dbC`. -/
theorem C9_witness :
    (instructor_set_student_progress_withFault dbC 9 1 5 .blank true).2
      = .ok { progress := 0, isManual := false }
    ∧ (instructor_set_student_progress_withFault dbC 9 1 5 .blank true).1.enrollments
      = clearOverride dbC.enrollments 1 5 :=
  C9_thm dbC 9 1 5 courseA (by decide)

/-- State for C10: course 1 of instructor 9 and an existing user 5, but no
enrollment row at all. -/
def dbD : DB :=
  { users := [{ id := 5, fullName := "Stu" }, { id := 9, fullName := "Inst" }],
    courses := [courseA],
    enrollments := [], assignments := [], submissions := [], notifications := [] }

/-- C10: setting a valid manual progress value for a (course, student) pair
with no enrollment row in the instructor's course reports success and sends
the student a notification, although no enrollment row exists or is mutated;
the route never checks that the enrollment exists before the update. -/
theorem C10_thm (db : DB) (uid cid sid : Nat) (v : ℚ) (c : Course) (u : UserRow)
    (hc : findOwnedCourse db uid cid = some c)
    (hu : db.users.find? (fun x => x.id == sid) = some u)
    (h0 : 0 ≤ v) (h100 : v ≤ 100)
    (hnone : findEnrollment db sid cid = none) :
    (instructor_set_student_progress db uid cid sid (.num v)).2
      = .ok { progress := v, isManual := true }
    ∧ (instructor_set_student_progress db uid cid sid (.num v)).1.enrollments
      = db.enrollments
    ∧ (instructor_set_student_progress db uid cid sid (.num v)).1.notifications
      = db.notifications ++ [{ userId := sid, title := "Course Progress Updated",
                               kind := "info", relatedId := some cid }] := by
  have hrange : ¬ (v < 0 || 100 < v) = true := by
    simp [not_lt.mpr h0, not_lt.mpr h100]
  have hroute :
      instructor_set_student_progress db uid cid sid (.num v)
        = ({ db with
              enrollments := setOverrideAndProgress db.enrollments cid sid v,
              notifications := db.notifications ++
                [{ userId := sid, title := "Course Progress Updated",
                   kind := "info", relatedId := some cid }] },
            .ok { progress := v, isManual := true }) := by
    unfold instructor_set_student_progress
    rw [hc]
    dsimp only
    rw [if_neg hrange, hu]
  have habsent : ∀ a ∈ db.enrollments, ¬ (a.studentId == sid && a.courseId == cid) = true :=
    List.find?_eq_none.mp hnone
  have hid : setOverrideAndProgress db.enrollments cid sid v = db.enrollments := by
    unfold setOverrideAndProgress
    have hcong : ∀ a ∈ db.enrollments,
        (if a.courseId == cid && a.studentId == sid then
          ({ a with manualProgressOverride := some v, progressPercentage := v } : Enrollment)
        else a) = id a := by
      intro a ha
      have hno := habsent a ha
      have : (a.courseId == cid && a.studentId == sid) = false := by
        rcases hsplit : (a.courseId == cid) with _ | _
        · simp [hsplit]
        · rcases hsplit2 : (a.studentId == sid) with _ | _
          · simp [hsplit, hsplit2]
          · exact absurd (by simp [hsplit, hsplit2]) hno
      simp [this]
    rw [List.map_congr_left hcong, List.map_id]
  exact ⟨by rw [hroute], by rw [hroute]; exact hid, by rw [hroute]⟩

/-- C10 witness: setting 60 percent for student 5 in `dbD`, which holds no
enrollment row, succeeds and notifies the student. -/
theorem C10_witness :
    (instructor_set_student_progress dbD 9 1 5 (.num 60)).2
      = .ok { progress := 60, isManual := true }
    ∧ (instructor_set_student_progress dbD 9 1 5 (.num 60)).1.enrollments
      = dbD.enrollments
    ∧ (instructor_set_student_progress dbD 9 1 5 (.num 60)).1.notifications
      = dbD.notifications ++ [{ userId := 5, title := "Course Progress Updated",
                                kind := "info", relatedId := some 1 }] :=
  C10_thm dbD 9 1 5 60 courseA { id := 5, fullName := "Stu" }
    (by decide) (by decide) (by decide) (by decide) (by decide)

end LearnNest
